import Mathlib

/-!
# sg2380 system configuration layer (`sg2380_sysconfig.c`)

A shallow embedding of the platform glue of the sg2380 GPU driver: the two
unified-memory physical address translators, the resource prober
`get_dev_resource`, the descriptor builder `DeviceConfigCreate` and the
entry point `SysDevInit`.

Conventions of the embedding.

* A C buffer of addresses is a `List Nat` holding its cells; a read or write
  past the end of the list is reported as `none`.
* Pointers and `unsigned long` values are natural numbers below `2 ^ 64`,
  `int` and `long` values are integers; conversions between them are written
  out (`toPtr`, `PTR_ERR`).
* Results of the host platform calls are fields of a `Platform` record.
-/

namespace SG2380

/-! ## Address translators -/

/-- Assignment `buf[i] = v` into a buffer; `none` when `i` is past its end. -/
def store (buf : List Nat) (i v : Nat) : Option (List Nat) :=
  if i < buf.length then some (buf.set i v) else none

/-- The loop `for (ui32Idx = ...; ui32Idx < ui32NumOfAddr; ++ui32Idx)
dst[ui32Idx].uiAddr = src[ui32Idx].uiAddr;` of both translators, entered with
the counter at `idx`.  The counter is an `IMG_UINT32`, so the increment wraps
at `2 ^ 32`.  The first argument bounds the number of iterations; `none` is an
access past the end of a buffer (or an exhausted bound). -/
def copyLoop (n : Nat) (src : List Nat) : Nat → Nat → List Nat → Option (List Nat)
  | 0, idx, dst => if idx < n then none else some dst
  | fuel + 1, idx, dst =>
    if idx < n then
      (src[idx]?).bind fun v =>
      (store dst idx v).bind fun dst1 =>
      copyLoop n src fuel ((idx + 1) % 2 ^ 32) dst1
    else some dst

/-- CPU to device physical address translation.  Returns the contents of
`psDevPAddr` after the call. -/
def UMAPhysHeapCpuPAddrToDevPAddr (hPrivData : Nat) (ui32NumOfAddr : Nat)
    (psDevPAddr psCpuPAddr : List Nat) : Option (List Nat) :=
  let _ := hPrivData
  (psCpuPAddr[0]?).bind fun v =>
  (store psDevPAddr 0 v).bind fun dev1 =>
  if ui32NumOfAddr > 1 then
    copyLoop ui32NumOfAddr psCpuPAddr ui32NumOfAddr 1 dev1
  else some dev1

/-- Device to CPU physical address translation.  Returns the contents of
`psCpuPAddr` after the call. -/
def UMAPhysHeapDevPAddrToCpuPAddr (hPrivData : Nat) (ui32NumOfAddr : Nat)
    (psCpuPAddr psDevPAddr : List Nat) : Option (List Nat) :=
  let _ := hPrivData
  (psDevPAddr[0]?).bind fun v =>
  (store psCpuPAddr 0 v).bind fun cpu1 =>
  if ui32NumOfAddr > 1 then
    copyLoop ui32NumOfAddr psDevPAddr ui32NumOfAddr 1 cpu1
  else some cpu1

/-- The uniform loop of the specification: starting at index `i`, copy `k`
consecutive cells `src[j]` to `dst[j]`. -/
def uniformFrom (src : List Nat) : Nat → Nat → List Nat → Option (List Nat)
  | 0, _, dst => some dst
  | k + 1, i, dst =>
    (src[i]?).bind fun v =>
    (store dst i v).bind fun dst1 =>
    uniformFrom src k (i + 1) dst1

/-- The uniform loop of the specification: `for i in [0, n): dst[i] = src[i]`. -/
def uniformCopy (n : Nat) (dst src : List Nat) : Option (List Nat) :=
  uniformFrom src n 0 dst

/-- One call of a translator `f` for a single address, on the two buffers
advanced by `i` cells (`f(h, 1, dst + i, src + i)`); the result is the whole
of `dst` after the call. -/
def callAt (f : Nat → Nat → List Nat → List Nat → Option (List Nat))
    (h i : Nat) (dst src : List Nat) : Option (List Nat) :=
  (f h 1 (dst.drop i) (src.drop i)).map fun d => dst.take i ++ d

/-- Processing one address at a time, as in the specification: `k` successive
single-address calls of `f`, for the indices `i, i + 1, ...`. -/
def oneAtATimeFrom (f : Nat → Nat → List Nat → List Nat → Option (List Nat))
    (h : Nat) (src : List Nat) : Nat → Nat → List Nat → Option (List Nat)
  | 0, _, dst => some dst
  | k + 1, i, dst =>
    (callAt f h i dst src).bind fun dst1 => oneAtATimeFrom f h src k (i + 1) dst1

/-- Processing one address at a time, as in the specification: `n` successive
single-address calls of `f`, for the indices `0 .. n - 1`. -/
def oneAtATime (f : Nat → Nat → List Nat → List Nat → Option (List Nat))
    (h n : Nat) (dst src : List Nat) : Option (List Nat) :=
  oneAtATimeFrom f h src n 0 dst

/-! ## Kernel error-pointer conventions -/

/-- Errno `ENOMEM`. -/
def ENOMEM : Int := 12
/-- Errno `ENODEV`. -/
def ENODEV : Int := 19
/-- Errno `EPROBE_DEFER`. -/
def EPROBE_DEFER : Int := 517
/-- Largest errno that an error pointer can carry. -/
def MAX_ERRNO : Int := 4095

/-- Conversion of an `int` or `long` to a 64-bit pointer (sign extension,
then reinterpretation as unsigned). -/
def toPtr (e : Int) : Nat := (e % 2 ^ 64).toNat

/-- Kernel `ERR_PTR`: the pointer that carries the error `e`. -/
def ERR_PTR (e : Int) : Nat := toPtr e

/-- Kernel `PTR_ERR`: the pointer read as a `long`. -/
def PTR_ERR (p : Nat) : Int := if p < 2 ^ 63 then (p : Int) else (p : Int) - 2 ^ 64

/-- Kernel `IS_ERR`: `(unsigned long)p >= (unsigned long)-MAX_ERRNO`. -/
def IS_ERR (p : Nat) : Bool := decide (toPtr (-MAX_ERRNO) ≤ p)

/-! ## Data model -/

/-- The enumeration `PVRSRV_ERROR`: the four values that this file names, and
`PVRSRV_ERROR_OTHER code` for every other value of the enumeration (such as
`PVRSRV_ERROR_INVALID_PARAMS` or `PVRSRV_ERROR_TIMEOUT`), by its numeric
code. -/
inductive PVRSRV_ERROR
  | PVRSRV_OK
  | PVRSRV_ERROR_OUT_OF_MEMORY
  | PVRSRV_ERROR_INIT_FAILURE
  | PVRSRV_ERROR_PROBE_DEFER
  | PVRSRV_ERROR_OTHER (code : Nat)
  deriving DecidableEq, Repr

/-- A kernel `struct resource`: first and last address of the region. -/
structure resource where
  start : Nat
  last : Nat
  deriving DecidableEq, Repr

/-- Kernel `resource_size`: `res->end - res->start + 1` in 64-bit arithmetic. -/
def resource_size (res : resource) : Nat :=
  (res.last + 2 ^ 64 - res.start % 2 ^ 64 + 1) % 2 ^ 64

/-- The private per-device record `struct sg2380_sysdata`. -/
structure sg2380_sysdata where
  dev : Nat
  reg_base : Nat
  rgx_start : Nat
  rgx_size : Nat
  rgx_irq : Int
  has_dma : Bool
  dma_tx_chan_name : Option String
  dma_rx_chan_name : Option String
  deriving DecidableEq, Repr

/-- A record as `devm_kzalloc` hands it out: every byte zero. -/
def sg2380_sysdata.zero : sg2380_sysdata :=
  { dev := 0, reg_base := 0, rgx_start := 0, rgx_size := 0, rgx_irq := 0,
    has_dma := false, dma_tx_chan_name := none, dma_rx_chan_name := none }

/-- The functions of this file whose address is stored in a descriptor. -/
inductive FnPtr
  | UMAPhysHeapCpuPAddrToDevPAddr
  | UMAPhysHeapDevPAddrToCpuPAddr
  | get_dma_chan
  | free_dma_chan
  deriving DecidableEq, Repr

/-- The translator table `PHYS_HEAP_FUNCTIONS`. -/
structure PHYS_HEAP_FUNCTIONS where
  pfnCpuPAddrToDevPAddr : Option FnPtr
  pfnDevPAddrToCpuPAddr : Option FnPtr
  deriving DecidableEq, Repr

/-- The table `gsPhysHeapFuncs`. -/
def gsPhysHeapFuncs : PHYS_HEAP_FUNCTIONS :=
  { pfnCpuPAddrToDevPAddr := some FnPtr.UMAPhysHeapCpuPAddrToDevPAddr,
    pfnDevPAddrToCpuPAddr := some FnPtr.UMAPhysHeapDevPAddrToCpuPAddr }

/-- Heap kinds; the zero value is `PHYS_HEAP_TYPE_UNKNOWN`. -/
inductive PHYS_HEAP_TYPE
  | PHYS_HEAP_TYPE_UNKNOWN
  | PHYS_HEAP_TYPE_UMA
  deriving DecidableEq, Repr

/-- Heap usage flags: no flag, or `PHYS_HEAP_USAGE_GPU_LOCAL`. -/
inductive PHYS_HEAP_USAGE
  | NO_FLAGS
  | PHYS_HEAP_USAGE_GPU_LOCAL
  deriving DecidableEq, Repr

/-- Default heap selector; the zero value is `PVRSRV_PHYS_HEAP_DEFAULT`. -/
inductive PVRSRV_PHYS_HEAP
  | PVRSRV_PHYS_HEAP_DEFAULT
  | PVRSRV_PHYS_HEAP_GPU_LOCAL
  deriving DecidableEq, Repr

/-- One `PHYS_HEAP_CONFIG` entry (the `sUMA` member of its union). -/
structure PHYS_HEAP_CONFIG where
  eType : PHYS_HEAP_TYPE
  ui32UsageFlags : PHYS_HEAP_USAGE
  pszPDumpMemspaceName : Option String
  psMemFuncs : Option PHYS_HEAP_FUNCTIONS
  pszHeapName : Option String
  hPrivData : Nat
  deriving DecidableEq, Repr

/-- The block `RGX_TIMING_INFORMATION`. -/
structure RGX_TIMING_INFORMATION where
  ui32CoreClockSpeed : Nat
  bEnableActivePM : Bool
  bEnableRDPowIsland : Bool
  ui32ActivePMLatencyms : Nat
  deriving DecidableEq, Repr

/-- The block `RGX_DATA`. -/
structure RGX_DATA where
  psRGXTimingInfo : Option RGX_TIMING_INFORMATION
  deriving DecidableEq, Repr

/-- The configuration descriptor `PVRSRV_DEVICE_CONFIG`, with the blocks that
share its allocation held by value.  A `NULL` pointer is `none` (or `0` for an
opaque handle). -/
structure PVRSRV_DEVICE_CONFIG where
  pasPhysHeaps : Option PHYS_HEAP_CONFIG
  ui32PhysHeapCount : Nat
  pvOSDevice : Nat
  pszName : Option String
  pszVersion : Option String
  eDefaultHeap : PVRSRV_PHYS_HEAP
  bHasFBCDCVersion31 : Bool
  bDevicePA0IsValid : Bool
  hDevData : Option RGX_DATA
  hSysData : Nat
  pfnSysDevFeatureDepInit : Option FnPtr
  ui32IRQ : Nat
  sRegsCpuPBase : Nat
  ui32RegsSize : Nat
  pfnSlaveDMAGetChan : Option FnPtr
  pfnSlaveDMAFreeChan : Option FnPtr
  pfnDevPhysAddr2DmaAddr : Option FnPtr
  pszDmaTxChanName : Option String
  pszDmaRxChanName : Option String
  bHasDma : Bool
  pfnPrePowerState : Option FnPtr
  pfnPostPowerState : Option FnPtr
  pfnClockFreqGet : Option FnPtr
  pfnSysDevErrorNotify : Option FnPtr
  deriving DecidableEq, Repr

/-- A descriptor as `OSAllocZMem` hands it out: every byte zero. -/
def PVRSRV_DEVICE_CONFIG.zero : PVRSRV_DEVICE_CONFIG :=
  { pasPhysHeaps := none, ui32PhysHeapCount := 0, pvOSDevice := 0, pszName := none,
    pszVersion := none, eDefaultHeap := PVRSRV_PHYS_HEAP.PVRSRV_PHYS_HEAP_DEFAULT,
    bHasFBCDCVersion31 := false, bDevicePA0IsValid := false, hDevData := none,
    hSysData := 0, pfnSysDevFeatureDepInit := none, ui32IRQ := 0, sRegsCpuPBase := 0,
    ui32RegsSize := 0, pfnSlaveDMAGetChan := none, pfnSlaveDMAFreeChan := none,
    pfnDevPhysAddr2DmaAddr := none, pszDmaTxChanName := none, pszDmaRxChanName := none,
    bHasDma := false, pfnPrePowerState := none, pfnPostPowerState := none,
    pfnClockFreqGet := none, pfnSysDevErrorNotify := none }

/-- `SYS_RGX_ACTIVE_POWER_LATENCY_MS`. -/
def SYS_RGX_ACTIVE_POWER_LATENCY_MS : Nat := 10
/-- `RGX_HW_CORE_CLOCK_SPEED`. -/
def RGX_HW_CORE_CLOCK_SPEED : Nat := 395000000
/-- `SG2380_SYSTEM_NAME`. -/
def SG2380_SYSTEM_NAME : String := "sg2380"

/-! ## Host platform and machine state -/

/-- The calls whose occurrence is recorded, in order, in the state. -/
inductive Call
  | devm_kzalloc
  | platform_get_resource (index : Nat)
  | devm_ioremap_resource
  | platform_get_irq_byname
  | of_parse_phandle_with_args
  | DeviceConfigCreate
  | OSAllocZMem
  deriving DecidableEq, Repr

/-- What the host platform answers to each request made during bring-up of
one device. -/
structure Platform where
  /-- The pointer returned by `devm_kzalloc`; `0` is `NULL`. -/
  devm_kzalloc : Nat
  /-- The `IORESOURCE_MEM` resource of each index, `none` when missing. -/
  platform_get_resource : Nat → Option resource
  /-- The mapped address, or an error pointer, for a resource. -/
  devm_ioremap_resource : Option resource → Nat
  /-- The line number, or a negative errno, for the interrupt `"RGX"`. -/
  platform_get_irq_byname : Int
  /-- The result of parsing the `"dmas"` specifier. -/
  of_parse_phandle_with_args : Int
  /-- The pointer returned by `OSAllocZMem`; `0` is `NULL`. -/
  OSAllocZMem : Nat

/-- The machine state: memory read as `struct sg2380_sysdata` at each address
(`none` where the access faults), the global `ghSysData`, and the calls made
so far. -/
structure State where
  mem : Nat → Option sg2380_sysdata
  ghSysData : Nat
  trace : List Call

/-- Record a call. -/
def State.call (st : State) (c : Call) : State :=
  { st with trace := st.trace ++ [c] }

/-- Store a record at an address. -/
def State.write (st : State) (p : Nat) (r : sg2380_sysdata) : State :=
  { st with mem := fun q => if q = p then some r else st.mem q }

/-- How a call of `DeviceConfigCreate` or `SysDevInit` ends: it returns an
error code, with `out` the descriptor stored through its output pointer
(`none` when nothing was stored), or it faults on an invalid access. -/
inductive Outcome
  | returned (e : PVRSRV_ERROR) (out : Option PVRSRV_DEVICE_CONFIG) (st : State)
  | fault (st : State)

/-- The state in which a call ended. -/
def Outcome.state : Outcome → State
  | Outcome.returned _ _ st => st
  | Outcome.fault st => st

/-- The returned error code; `none` for a fault. -/
def Outcome.error : Outcome → Option PVRSRV_ERROR
  | Outcome.returned e _ _ => some e
  | Outcome.fault _ => none

/-- The descriptor stored through the output pointer, if any. -/
def Outcome.out : Outcome → Option PVRSRV_DEVICE_CONFIG
  | Outcome.returned _ out _ => out
  | Outcome.fault _ => none

/-! ## Prober, builder and entry point -/

/-- The prober `get_dev_resource`: the returned pointer and the state after
the call.  The record lives at the address that `devm_kzalloc` returned. -/
def get_dev_resource (w : Platform) (st : State) (dev : Nat) : Nat × State :=
  let sysdata := w.devm_kzalloc
  let st := st.call Call.devm_kzalloc
  if sysdata = 0 then (ERR_PTR (-ENOMEM), st) else
  let r0 := sg2380_sysdata.zero
  let r1 := { r0 with dev := dev }
  -- gpu address area
  let st := st.call (Call.platform_get_resource 0)
  match w.platform_get_resource 0 with
  | none => (toPtr (-ENODEV), st.write sysdata r1)
  | some res =>
    let r2 := { r1 with rgx_start := res.start % 2 ^ 64, rgx_size := resource_size res }
    -- ioremapped register address area
    let st := st.call (Call.platform_get_resource 1)
    let res1 := w.platform_get_resource 1
    let st := st.call Call.devm_ioremap_resource
    let r3 := { r2 with reg_base := w.devm_ioremap_resource res1 }
    if IS_ERR r3.reg_base then (toPtr (PTR_ERR r3.reg_base), st.write sysdata r3) else
    let st := st.call Call.platform_get_irq_byname
    let r4 := { r3 with rgx_irq := w.platform_get_irq_byname }
    if r4.rgx_irq < 0 then (toPtr r4.rgx_irq, st.write sysdata r4) else
    -- dma_ret == 1: no dma
    let st := st.call Call.of_parse_phandle_with_args
    let dma_ret := w.of_parse_phandle_with_args
    let r5 := { r4 with has_dma := decide (dma_ret ≠ 1) }
    (0, st.write sysdata r5)

/-- The builder `DeviceConfigCreate`; `sysdata` is the pointer it is given. -/
def DeviceConfigCreate (w : Platform) (st : State) (pvOSDevice sysdata : Nat) : Outcome :=
  let st := st.call Call.DeviceConfigCreate
  let st := st.call Call.OSAllocZMem
  if w.OSAllocZMem = 0 then
    Outcome.returned PVRSRV_ERROR.PVRSRV_ERROR_OUT_OF_MEMORY none st
  else
  let c := PVRSRV_DEVICE_CONFIG.zero
  -- Set up the RGX timing information
  let psRGXTimingInfo : RGX_TIMING_INFORMATION :=
    { ui32CoreClockSpeed := RGX_HW_CORE_CLOCK_SPEED, bEnableActivePM := true,
      bEnableRDPowIsland := true, ui32ActivePMLatencyms := SYS_RGX_ACTIVE_POWER_LATENCY_MS }
  -- Set up the RGX data
  let psRGXData : RGX_DATA := { psRGXTimingInfo := some psRGXTimingInfo }
  let psPhysHeapConfig : PHYS_HEAP_CONFIG :=
    { eType := PHYS_HEAP_TYPE.PHYS_HEAP_TYPE_UMA,
      ui32UsageFlags := PHYS_HEAP_USAGE.PHYS_HEAP_USAGE_GPU_LOCAL,
      pszPDumpMemspaceName := some "SYSMEM",
      psMemFuncs := some gsPhysHeapFuncs,
      pszHeapName := some "uma_gpu_local",
      hPrivData := 0 }
  let c := { c with pasPhysHeaps := some psPhysHeapConfig, ui32PhysHeapCount := 1 }
  let c := { c with pvOSDevice := pvOSDevice, pszName := some SG2380_SYSTEM_NAME,
                    pszVersion := none }
  let c := { c with eDefaultHeap := PVRSRV_PHYS_HEAP.PVRSRV_PHYS_HEAP_GPU_LOCAL }
  let c := { c with bHasFBCDCVersion31 := false, bDevicePA0IsValid := false }
  let c := { c with hDevData := some psRGXData, hSysData := sysdata }
  let st := { st with ghSysData := c.hSysData }
  let c := { c with pfnSysDevFeatureDepInit := none }
  -- the reads through `sysdata`
  match st.mem sysdata with
  | none => Outcome.fault st
  | some rec =>
    let c := { c with ui32IRQ := (rec.rgx_irq % 2 ^ 32).toNat }
    let c := { c with sRegsCpuPBase := rec.rgx_start, ui32RegsSize := rec.rgx_size % 2 ^ 32 }
    -- DMA channel config
    let c := if rec.has_dma then
        { c with pfnSlaveDMAGetChan := some FnPtr.get_dma_chan,
                 pfnSlaveDMAFreeChan := some FnPtr.free_dma_chan,
                 pfnDevPhysAddr2DmaAddr := none,
                 pszDmaTxChanName := some "Tx",
                 pszDmaRxChanName := some "Rx",
                 bHasDma := true }
      else c
    -- power management on HW system
    let c := { c with pfnPrePowerState := none, pfnPostPowerState := none }
    -- clock frequency
    let c := { c with pfnClockFreqGet := none }
    -- device error notify callback function
    let c := { c with pfnSysDevErrorNotify := none }
    Outcome.returned PVRSRV_ERROR.PVRSRV_OK (some c) st

/-- The entry point `SysDevInit`; `out` of the outcome is what it stored
through `ppsDevConfig`. -/
def SysDevInit (w : Platform) (st : State) (pvOSDevice : Nat) : Outcome :=
  let dev := pvOSDevice
  let (sysdata, st) := get_dev_resource w st dev
  if IS_ERR sysdata then
    if PTR_ERR sysdata = -EPROBE_DEFER then
      Outcome.returned PVRSRV_ERROR.PVRSRV_ERROR_PROBE_DEFER none st
    else
      Outcome.returned PVRSRV_ERROR.PVRSRV_ERROR_INIT_FAILURE none st
  else
  match DeviceConfigCreate w st pvOSDevice sysdata with
  | Outcome.fault st => Outcome.fault st
  | Outcome.returned eError psDevConfig st =>
    if eError ≠ PVRSRV_ERROR.PVRSRV_OK then Outcome.returned eError none st
    else Outcome.returned PVRSRV_ERROR.PVRSRV_OK psDevConfig st

/-- A state with no record mapped anywhere and no call made. -/
def State.init : State := { mem := fun _ => none, ghSysData := 0, trace := [] }

/-- A platform on which every lookup succeeds: interrupt line 42, a 64 KiB
compute region at `0x50000000`, DMA specifier parsed. -/
def platformOk : Platform :=
  { devm_kzalloc := 0xffffffd800001000,
    platform_get_resource := fun i =>
      if i = 0 then some { start := 0x50000000, last := 0x5000ffff }
      else if i = 1 then some { start := 0x50010000, last := 0x50010fff } else none,
    devm_ioremap_resource := fun _ => 0xffffffc800200000,
    platform_get_irq_byname := 42,
    of_parse_phandle_with_args := 0,
    OSAllocZMem := 0xffffffd800002000 }

/-! ## Lemmas on the translators -/

theorem take_append_set_drop (l : List Nat) (i v : Nat) (hi : i < l.length) :
    l.take i ++ (l.drop i).set 0 v = l.set i v := by
  induction l generalizing i with
  | nil => simp at hi
  | cons a t ih =>
    cases i with
    | zero => simp
    | succ j =>
      have hj : j < t.length := by simpa using hi
      simp [ih j hj]

theorem copyLoop_eq_uniformFrom (n : Nat) (src : List Nat) (hn : n < 2 ^ 32) :
    ∀ (fuel idx : Nat) (dst : List Nat), idx ≤ n → n - idx ≤ fuel →
      copyLoop n src fuel idx dst = uniformFrom src (n - idx) idx dst := by
  intro fuel
  induction fuel with
  | zero =>
    intro idx dst h1 h2
    have h3 : n - idx = 0 := by omega
    have h4 : ¬ idx < n := by omega
    simp [copyLoop, h3, h4, uniformFrom]
  | succ f ih =>
    intro idx dst h1 h2
    by_cases h : idx < n
    · have h3 : n - idx = (n - (idx + 1)) + 1 := by omega
      have h4 : (idx + 1) % 2 ^ 32 = idx + 1 := Nat.mod_eq_of_lt (by omega)
      rw [h3]
      simp only [copyLoop, h, if_true, uniformFrom, h4]
      cases src[idx]? with
      | none => rfl
      | some v =>
        simp only [Option.bind]
        cases store dst idx v with
        | none => rfl
        | some d => exact ih (idx + 1) d (by omega) (by omega)
    · have h3 : n - idx = 0 := by omega
      simp [copyLoop, h, h3, uniformFrom]

theorem CpuToDev_eq_uniformCopy (h n : Nat) (dst src : List Nat)
    (h1 : 1 ≤ n) (hn : n < 2 ^ 32) :
    UMAPhysHeapCpuPAddrToDevPAddr h n dst src = uniformCopy n dst src := by
  obtain ⟨m, rfl⟩ : ∃ m, n = m + 1 := ⟨n - 1, by omega⟩
  simp only [UMAPhysHeapCpuPAddrToDevPAddr, uniformCopy, uniformFrom]
  cases src[0]? with
  | none => rfl
  | some v =>
    simp only [Option.bind]
    cases store dst 0 v with
    | none => rfl
    | some d =>
      simp only []
      by_cases hm : m + 1 > 1
      · simp only [hm, if_true]
        have := copyLoop_eq_uniformFrom (m + 1) src hn (m + 1) 1 d (by omega) (by omega)
        simpa using this
      · have h0 : m = 0 := by omega
        subst h0
        simp [uniformFrom]

theorem DevToCpu_eq_uniformCopy (h n : Nat) (dst src : List Nat)
    (h1 : 1 ≤ n) (hn : n < 2 ^ 32) :
    UMAPhysHeapDevPAddrToCpuPAddr h n dst src = uniformCopy n dst src := by
  obtain ⟨m, rfl⟩ : ∃ m, n = m + 1 := ⟨n - 1, by omega⟩
  simp only [UMAPhysHeapDevPAddrToCpuPAddr, uniformCopy, uniformFrom]
  cases src[0]? with
  | none => rfl
  | some v =>
    simp only [Option.bind]
    cases store dst 0 v with
    | none => rfl
    | some d =>
      simp only []
      by_cases hm : m + 1 > 1
      · simp only [hm, if_true]
        have := copyLoop_eq_uniformFrom (m + 1) src hn (m + 1) 1 d (by omega) (by omega)
        simpa using this
      · have h0 : m = 0 := by omega
        subst h0
        simp [uniformFrom]

theorem callAt_single (f : Nat → Nat → List Nat → List Nat → Option (List Nat))
    (hf : ∀ h d s, f h 1 d s = uniformCopy 1 d s) (h i : Nat) (dst src : List Nat) :
    callAt f h i dst src = (src[i]?).bind fun v => store dst i v := by
  simp only [callAt, hf, uniformCopy, uniformFrom, List.getElem?_drop, Nat.add_zero]
  cases src[i]? with
  | none => rfl
  | some v =>
    simp only [Option.bind, store, List.length_drop]
    by_cases hi : i < dst.length
    · have h2 : 0 < dst.length - i := by omega
      simp [h2, hi, take_append_set_drop dst i v hi]
    · have h2 : ¬ 0 < dst.length - i := by omega
      simp [h2, hi]

theorem oneAtATimeFrom_eq_uniformFrom
    (f : Nat → Nat → List Nat → List Nat → Option (List Nat))
    (hf : ∀ h d s, f h 1 d s = uniformCopy 1 d s) (h : Nat) (src : List Nat) :
    ∀ (k i : Nat) (dst : List Nat),
      oneAtATimeFrom f h src k i dst = uniformFrom src k i dst := by
  intro k
  induction k with
  | zero => intro i dst; rfl
  | succ k ih =>
    intro i dst
    simp only [oneAtATimeFrom, uniformFrom, callAt_single f hf]
    cases src[i]? with
    | none => rfl
    | some v =>
      simp only [Option.bind]
      cases store dst i v with
      | none => rfl
      | some d => exact ih (i + 1) d

theorem uniformFrom_spec (src : List Nat) :
    ∀ (k i : Nat) (dst : List Nat), i + k ≤ src.length → i + k ≤ dst.length →
      ∃ d, uniformFrom src k i dst = some d ∧ d.length = dst.length ∧
        ∀ j, d[j]? = if i ≤ j ∧ j < i + k then src[j]? else dst[j]? := by
  intro k
  induction k with
  | zero =>
    intro i dst _ _
    refine ⟨dst, rfl, rfl, fun j => ?_⟩
    have h0 : ¬ (i ≤ j ∧ j < i + 0) := by omega
    rw [if_neg h0]
  | succ k ih =>
    intro i dst hs hd
    have his : i < src.length := by omega
    have hid : i < dst.length := by omega
    obtain ⟨d, hd1, hd2, hd3⟩ := ih (i + 1) (dst.set i src[i])
      (by omega) (by simp; omega)
    refine ⟨d, ?_, ?_, fun j => ?_⟩
    · simp [uniformFrom, List.getElem?_eq_getElem his, store, hid, hd1]
    · simpa using hd2
    · rw [hd3 j]
      by_cases hj : j = i
      · subst hj
        have h1 : ¬ (j + 1 ≤ j ∧ j < j + 1 + k) := by omega
        have h2 : j ≤ j ∧ j < j + (k + 1) := by omega
        simp [h1, h2, List.getElem?_eq_getElem his, hid]
      · by_cases hc : i + 1 ≤ j ∧ j < i + 1 + k
        · have h2 : i ≤ j ∧ j < i + (k + 1) := by omega
          simp [hc, h2]
        · have h2 : ¬ (i ≤ j ∧ j < i + (k + 1)) := by omega
          have h3 : i ≠ j := fun e => hj e.symm
          simp [hc, h2, List.getElem?_set_ne h3]


theorem CpuToDev_spec (h n : Nat) (out inp : List Nat) (h1 : 1 ≤ n) (hn : n < 2 ^ 32)
    (hin : n ≤ inp.length) (hout : n ≤ out.length) :
    ∃ d, UMAPhysHeapCpuPAddrToDevPAddr h n out inp = some d ∧ d.length = out.length ∧
      ∀ i, d[i]? = if i < n then inp[i]? else out[i]? := by
  rw [CpuToDev_eq_uniformCopy h n out inp h1 hn]
  obtain ⟨d, e1, e2, e3⟩ := uniformFrom_spec inp n 0 out (by omega) (by omega)
  refine ⟨d, e1, e2, fun i => ?_⟩
  rw [e3 i]
  simp

theorem DevToCpu_spec (h n : Nat) (out inp : List Nat) (h1 : 1 ≤ n) (hn : n < 2 ^ 32)
    (hin : n ≤ inp.length) (hout : n ≤ out.length) :
    ∃ d, UMAPhysHeapDevPAddrToCpuPAddr h n out inp = some d ∧ d.length = out.length ∧
      ∀ i, d[i]? = if i < n then inp[i]? else out[i]? := by
  rw [DevToCpu_eq_uniformCopy h n out inp h1 hn]
  obtain ⟨d, e1, e2, e3⟩ := uniformFrom_spec inp n 0 out (by omega) (by omega)
  refine ⟨d, e1, e2, fun i => ?_⟩
  rw [e3 i]
  simp

theorem CpuToDev_exact (h n : Nat) (out xs : List Nat) (h1 : 1 ≤ n) (hn : n < 2 ^ 32)
    (hin : xs.length = n) (hout : out.length = n) :
    UMAPhysHeapCpuPAddrToDevPAddr h n out xs = some xs := by
  obtain ⟨d, e1, e2, e3⟩ := CpuToDev_spec h n out xs h1 hn (by omega) (by omega)
  rw [e1]
  congr 1
  apply List.ext_getElem?
  intro i
  rw [e3 i]
  by_cases hi : i < n
  · simp [hi]
  · have ho : out.length ≤ i := by omega
    have hx : xs.length ≤ i := by omega
    simp [hi, List.getElem?_eq_none ho, List.getElem?_eq_none hx]

theorem DevToCpu_exact (h n : Nat) (out xs : List Nat) (h1 : 1 ≤ n) (hn : n < 2 ^ 32)
    (hin : xs.length = n) (hout : out.length = n) :
    UMAPhysHeapDevPAddrToCpuPAddr h n out xs = some xs := by
  obtain ⟨d, e1, e2, e3⟩ := DevToCpu_spec h n out xs h1 hn (by omega) (by omega)
  rw [e1]
  congr 1
  apply List.ext_getElem?
  intro i
  rw [e3 i]
  by_cases hi : i < n
  · simp [hi]
  · have ho : out.length ≤ i := by omega
    have hx : xs.length ≤ i := by omega
    simp [hi, List.getElem?_eq_none ho, List.getElem?_eq_none hx]

/-! ## The translators: claims C2, C3, C4 -/

/-- C2: for an address count `n >= 1` (an `IMG_UINT32`) and buffers that hold
at least `n` addresses, both translators return normally and leave
`out[i] = in[i]` for every `i < n` (every index, not only index 0); the cells
of the output buffer from `n` on keep their contents. -/
theorem C2_translators_identity (h n : Nat) (out inp : List Nat)
    (h1 : 1 ≤ n) (hn : n < 2 ^ 32) (hin : n ≤ inp.length) (hout : n ≤ out.length) :
    (∃ d, UMAPhysHeapCpuPAddrToDevPAddr h n out inp = some d ∧ d.length = out.length ∧
        (∀ i, i < n → d[i]? = inp[i]?) ∧ (∀ i, n ≤ i → d[i]? = out[i]?)) ∧
    (∃ d, UMAPhysHeapDevPAddrToCpuPAddr h n out inp = some d ∧ d.length = out.length ∧
        (∀ i, i < n → d[i]? = inp[i]?) ∧ (∀ i, n ≤ i → d[i]? = out[i]?)) := by
  constructor
  · obtain ⟨d, e1, e2, e3⟩ := CpuToDev_spec h n out inp h1 hn hin hout
    refine ⟨d, e1, e2, fun i hi => ?_, fun i hi => ?_⟩
    · rw [e3 i, if_pos hi]
    · rw [e3 i, if_neg (by omega)]
  · obtain ⟨d, e1, e2, e3⟩ := DevToCpu_spec h n out inp h1 hn hin hout
    refine ⟨d, e1, e2, fun i hi => ?_, fun i hi => ?_⟩
    · rw [e3 i, if_pos hi]
    · rw [e3 i, if_neg (by omega)]

/-- Witness of C2: three addresses copied into a four-cell buffer. -/
theorem C2_translators_identity_witness :
    (∃ d, UMAPhysHeapCpuPAddrToDevPAddr 0 3 [0, 0, 0, 9] [1, 2, 3] = some d ∧
        d.length = [0, 0, 0, 9].length ∧
        (∀ i, i < 3 → d[i]? = [1, 2, 3][i]?) ∧ (∀ i, 3 ≤ i → d[i]? = [0, 0, 0, 9][i]?)) ∧
    (∃ d, UMAPhysHeapDevPAddrToCpuPAddr 0 3 [0, 0, 0, 9] [1, 2, 3] = some d ∧
        d.length = [0, 0, 0, 9].length ∧
        (∀ i, i < 3 → d[i]? = [1, 2, 3][i]?) ∧ (∀ i, 3 ≤ i → d[i]? = [0, 0, 0, 9][i]?)) :=
  C2_translators_identity 0 3 [0, 0, 0, 9] [1, 2, 3] (by decide) (by decide) (by decide)
    (by decide)

/-- C3: round trip.  For `n >= 1` and a sequence `xs` of `n` CPU physical
addresses, translating `xs` to device addresses (into any `n`-cell buffer)
gives `xs`, and translating that result back (into any `n`-cell buffer) gives
`xs` again; on `[10,20,30,40,50]` the intermediate and the final sequence are
both `[10,20,30,40,50]`. -/
theorem C3_round_trip :
    (∀ (h n : Nat) (xs dev0 cpu0 : List Nat), 1 ≤ n → n < 2 ^ 32 → xs.length = n →
        dev0.length = n → cpu0.length = n →
        UMAPhysHeapCpuPAddrToDevPAddr h n dev0 xs = some xs ∧
        ((UMAPhysHeapCpuPAddrToDevPAddr h n dev0 xs).bind fun dev =>
            UMAPhysHeapDevPAddrToCpuPAddr h n cpu0 dev) = some xs) ∧
    UMAPhysHeapCpuPAddrToDevPAddr 0 5 [0, 0, 0, 0, 0] [10, 20, 30, 40, 50]
      = some [10, 20, 30, 40, 50] ∧
    UMAPhysHeapDevPAddrToCpuPAddr 0 5 [0, 0, 0, 0, 0] [10, 20, 30, 40, 50]
      = some [10, 20, 30, 40, 50] := by
  refine ⟨?_, by decide, by decide⟩
  intro h n xs dev0 cpu0 h1 hn hx hd hc
  have e1 := CpuToDev_exact h n dev0 xs h1 hn hx hd
  have e2 := DevToCpu_exact h n cpu0 xs h1 hn hx hc
  refine ⟨e1, ?_⟩
  rw [e1]
  exact e2

/-- Witness of C3: the round trip of a single address (`n = 1`). -/
theorem C3_round_trip_witness :
    UMAPhysHeapCpuPAddrToDevPAddr 0 1 [0] [77] = some [77] ∧
    ((UMAPhysHeapCpuPAddrToDevPAddr 0 1 [0] [77]).bind fun dev =>
        UMAPhysHeapDevPAddrToCpuPAddr 0 1 [5] dev) = some [77] :=
  C3_round_trip.1 0 1 [77] [0] [5] (by decide) (by decide) rfl rfl rfl

/-- C4 as stated fails for the address count 0: the translators copy cell 0
before looking at the count, the uniform loop and zero single-address calls
leave the output buffer alone. -/
theorem C4_counterexample :
    UMAPhysHeapCpuPAddrToDevPAddr 0 0 [7] [5] = some [5] ∧
    UMAPhysHeapDevPAddrToCpuPAddr 0 0 [7] [5] = some [5] ∧
    uniformCopy 0 [7] [5] = some [7] ∧
    oneAtATime UMAPhysHeapCpuPAddrToDevPAddr 0 0 [7] [5] = some [7] ∧
    oneAtATime UMAPhysHeapDevPAddrToCpuPAddr 0 0 [7] [5] = some [7] := by
  decide

/-- C4, amended: for every address count `n >= 1` (an `IMG_UINT32`) and every
pair of buffers, each translator leaves the same output buffer (or fails on
the same out-of-range access) as the uniform loop over `[0, n)` and as `n`
successive single-address calls. -/
theorem C4_batch_equals_uniform (h n : Nat) (dst src : List Nat)
    (h1 : 1 ≤ n) (hn : n < 2 ^ 32) :
    UMAPhysHeapCpuPAddrToDevPAddr h n dst src = uniformCopy n dst src ∧
    UMAPhysHeapCpuPAddrToDevPAddr h n dst src
      = oneAtATime UMAPhysHeapCpuPAddrToDevPAddr h n dst src ∧
    UMAPhysHeapDevPAddrToCpuPAddr h n dst src = uniformCopy n dst src ∧
    UMAPhysHeapDevPAddrToCpuPAddr h n dst src
      = oneAtATime UMAPhysHeapDevPAddrToCpuPAddr h n dst src := by
  have a := CpuToDev_eq_uniformCopy h n dst src h1 hn
  have b := DevToCpu_eq_uniformCopy h n dst src h1 hn
  have fa : ∀ h d s, UMAPhysHeapCpuPAddrToDevPAddr h 1 d s = uniformCopy 1 d s :=
    fun h d s => CpuToDev_eq_uniformCopy h 1 d s (by decide) (by decide)
  have fb : ∀ h d s, UMAPhysHeapDevPAddrToCpuPAddr h 1 d s = uniformCopy 1 d s :=
    fun h d s => DevToCpu_eq_uniformCopy h 1 d s (by decide) (by decide)
  refine ⟨a, ?_, b, ?_⟩
  · rw [a, oneAtATime, oneAtATimeFrom_eq_uniformFrom _ fa, uniformCopy]
  · rw [b, oneAtATime, oneAtATimeFrom_eq_uniformFrom _ fb, uniformCopy]

/-- Witness of C4: three addresses, batch against uniform loop and against
three single calls. -/
theorem C4_batch_equals_uniform_witness :
    UMAPhysHeapCpuPAddrToDevPAddr 0 3 [0, 0, 0, 9] [1, 2, 3]
      = uniformCopy 3 [0, 0, 0, 9] [1, 2, 3] ∧
    UMAPhysHeapCpuPAddrToDevPAddr 0 3 [0, 0, 0, 9] [1, 2, 3]
      = oneAtATime UMAPhysHeapCpuPAddrToDevPAddr 0 3 [0, 0, 0, 9] [1, 2, 3] ∧
    UMAPhysHeapDevPAddrToCpuPAddr 0 3 [0, 0, 0, 9] [1, 2, 3]
      = uniformCopy 3 [0, 0, 0, 9] [1, 2, 3] ∧
    UMAPhysHeapDevPAddrToCpuPAddr 0 3 [0, 0, 0, 9] [1, 2, 3]
      = oneAtATime UMAPhysHeapDevPAddrToCpuPAddr 0 3 [0, 0, 0, 9] [1, 2, 3] :=
  C4_batch_equals_uniform 0 3 [0, 0, 0, 9] [1, 2, 3] (by decide) (by decide)

/-! ## Lemmas on error pointers -/

theorem IS_ERR_ENOMEM : IS_ERR (ERR_PTR (-ENOMEM)) = true := by decide

theorem PTR_ERR_ENOMEM : PTR_ERR (ERR_PTR (-ENOMEM)) = -12 := by decide

theorem IS_ERR_ENODEV : IS_ERR (toPtr (-ENODEV)) = true := by decide

theorem PTR_ERR_ENODEV : PTR_ERR (toPtr (-ENODEV)) = -19 := by decide

theorem IS_ERR_EPROBE_DEFER : IS_ERR (toPtr (-EPROBE_DEFER)) = true := by decide

theorem PTR_ERR_EPROBE_DEFER : PTR_ERR (toPtr (-EPROBE_DEFER)) = -EPROBE_DEFER := by decide

/-- The prober on its success path: it returns the null pointer `0`, after
all six platform calls, and leaves the filled record at the address that
`devm_kzalloc` returned. -/
theorem get_dev_resource_ok (w : Platform) (st : State) (dev : Nat) (r : resource)
    (hk : w.devm_kzalloc ≠ 0) (hr : w.platform_get_resource 0 = some r)
    (hm : IS_ERR (w.devm_ioremap_resource (w.platform_get_resource 1)) = false)
    (hi : 0 ≤ w.platform_get_irq_byname) :
    get_dev_resource w st dev =
      (0, State.write
        { st with trace := st.trace ++
            [Call.devm_kzalloc, Call.platform_get_resource 0, Call.platform_get_resource 1,
             Call.devm_ioremap_resource, Call.platform_get_irq_byname,
             Call.of_parse_phandle_with_args] }
        w.devm_kzalloc
        { dev := dev, reg_base := w.devm_ioremap_resource (w.platform_get_resource 1),
          rgx_start := r.start % 2 ^ 64, rgx_size := resource_size r,
          rgx_irq := w.platform_get_irq_byname,
          has_dma := decide (w.of_parse_phandle_with_args ≠ 1),
          dma_tx_chan_name := none, dma_rx_chan_name := none }) := by
  have hi2 : ¬ w.platform_get_irq_byname < 0 := by omega
  simp [get_dev_resource, hk, hr, hm, hi2, State.write, State.call, sg2380_sysdata.zero]

/-- The three ways in which the builder ends: out of memory with nothing
stored, a fault on the read through `sysdata`, or `PVRSRV_OK` with a
descriptor whose `hSysData` is the pointer it was given. -/
theorem DeviceConfigCreate_cases (w : Platform) (st : State) (pvOSDevice p : Nat) :
    (∃ st1, DeviceConfigCreate w st pvOSDevice p
        = Outcome.returned PVRSRV_ERROR.PVRSRV_ERROR_OUT_OF_MEMORY none st1) ∨
    (∃ st1, DeviceConfigCreate w st pvOSDevice p = Outcome.fault st1) ∨
    (∃ c st1, DeviceConfigCreate w st pvOSDevice p
        = Outcome.returned PVRSRV_ERROR.PVRSRV_OK (some c) st1 ∧ c.hSysData = p) := by
  by_cases ha : w.OSAllocZMem = 0
  · left
    simp [DeviceConfigCreate, ha]
  · right
    cases hm : st.mem p with
    | none =>
      left
      simp [DeviceConfigCreate, ha, hm, State.call]
    | some rec =>
      right
      cases hd : rec.has_dma <;>
        simp [DeviceConfigCreate, ha, hm, hd, State.call, PVRSRV_DEVICE_CONFIG.zero]

/-- The entry point in terms of the pointer and state that the prober hands
back. -/
theorem SysDevInit_eq (w : Platform) (st : State) (dev : Nat) :
    SysDevInit w st dev =
      if IS_ERR (get_dev_resource w st dev).1 = true then
        if PTR_ERR (get_dev_resource w st dev).1 = -EPROBE_DEFER then
          Outcome.returned PVRSRV_ERROR.PVRSRV_ERROR_PROBE_DEFER none
            (get_dev_resource w st dev).2
        else
          Outcome.returned PVRSRV_ERROR.PVRSRV_ERROR_INIT_FAILURE none
            (get_dev_resource w st dev).2
      else
        match DeviceConfigCreate w (get_dev_resource w st dev).2 dev
            (get_dev_resource w st dev).1 with
        | Outcome.fault s => Outcome.fault s
        | Outcome.returned eError psDevConfig s =>
          if eError ≠ PVRSRV_ERROR.PVRSRV_OK then Outcome.returned eError none s
          else Outcome.returned PVRSRV_ERROR.PVRSRV_OK psDevConfig s := rfl

/-- An errno within `[-MAX_ERRNO, -1]` survives the trip through a pointer. -/
theorem errno_pointer (e : Int) (h1 : -4095 ≤ e) (h2 : e < 0) :
    IS_ERR (toPtr e) = true ∧ PTR_ERR (toPtr e) = e := by
  have h64 : (2 : Int) ^ 64 = 18446744073709551616 := by norm_num
  have hp : ((toPtr e : Nat) : Int) = e + 18446744073709551616 := by
    unfold toPtr
    rw [Int.toNat_of_nonneg (Int.emod_nonneg _ (by norm_num)), h64]
    omega
  have hm : toPtr (-MAX_ERRNO) = 18446744073709547521 := by decide
  constructor
  · simp only [IS_ERR, hm, decide_eq_true_eq]
    omega
  · unfold PTR_ERR
    have h63 : (2 : Nat) ^ 63 = 9223372036854775808 := by norm_num
    rw [h63, h64]
    have : ¬ toPtr e < 9223372036854775808 := by omega
    rw [if_neg this, hp]
    omega

/-- The entry point when the interrupt lookup hands back an errno within
`[-MAX_ERRNO, -1]`: `PVRSRV_ERROR_PROBE_DEFER` for `-EPROBE_DEFER`,
`PVRSRV_ERROR_INIT_FAILURE` for every other one, nothing stored, no call
after the lookup. -/
theorem SysDevInit_irq_fails (w : Platform) (st : State) (dev : Nat) (r : resource)
    (hk : w.devm_kzalloc ≠ 0) (hr : w.platform_get_resource 0 = some r)
    (hm : IS_ERR (w.devm_ioremap_resource (w.platform_get_resource 1)) = false)
    (h1 : -4095 ≤ w.platform_get_irq_byname) (h2 : w.platform_get_irq_byname < 0) :
    (SysDevInit w st dev).error = some
      (if w.platform_get_irq_byname = -EPROBE_DEFER
        then PVRSRV_ERROR.PVRSRV_ERROR_PROBE_DEFER
        else PVRSRV_ERROR.PVRSRV_ERROR_INIT_FAILURE) ∧
    (SysDevInit w st dev).out = none ∧
    (SysDevInit w st dev).state.trace = st.trace ++
      [Call.devm_kzalloc, Call.platform_get_resource 0, Call.platform_get_resource 1,
       Call.devm_ioremap_resource, Call.platform_get_irq_byname] := by
  obtain ⟨e1, e2⟩ := errno_pointer w.platform_get_irq_byname h1 h2
  by_cases h3 : w.platform_get_irq_byname = -EPROBE_DEFER
  · simp only [if_pos h3]
    rw [h3] at e1 e2 h2
    simp [SysDevInit, get_dev_resource, hk, hr, hm, h2, h3, e1, e2, Outcome.error,
      Outcome.out, Outcome.state, State.call, State.write]
  · simp [SysDevInit, get_dev_resource, hk, hr, hm, h2, h3, e1, e2, Outcome.error,
      Outcome.out, Outcome.state, State.call, State.write]

/-- C5: with the record allocated and the primary resource present, a
deferred interrupt lookup behind a mapped register window makes `SysDevInit`
return exactly `PVRSRV_ERROR_PROBE_DEFER`, store nothing through its output
pointer and stop after the interrupt lookup (no call of `DeviceConfigCreate`);
the same holds, stopping after the mapping, when the register mapping is the
lookup that reports `-EPROBE_DEFER`. -/
theorem C5_probe_defer (w : Platform) (st : State) (dev : Nat) (r : resource)
    (hk : w.devm_kzalloc ≠ 0) (hr : w.platform_get_resource 0 = some r) :
    (IS_ERR (w.devm_ioremap_resource (w.platform_get_resource 1)) = false →
      w.platform_get_irq_byname = -EPROBE_DEFER →
      (SysDevInit w st dev).error = some PVRSRV_ERROR.PVRSRV_ERROR_PROBE_DEFER ∧
      (SysDevInit w st dev).out = none ∧
      (SysDevInit w st dev).state.trace = st.trace ++
        [Call.devm_kzalloc, Call.platform_get_resource 0, Call.platform_get_resource 1,
         Call.devm_ioremap_resource, Call.platform_get_irq_byname]) ∧
    (w.devm_ioremap_resource (w.platform_get_resource 1) = ERR_PTR (-EPROBE_DEFER) →
      (SysDevInit w st dev).error = some PVRSRV_ERROR.PVRSRV_ERROR_PROBE_DEFER ∧
      (SysDevInit w st dev).out = none ∧
      (SysDevInit w st dev).state.trace = st.trace ++
        [Call.devm_kzalloc, Call.platform_get_resource 0, Call.platform_get_resource 1,
         Call.devm_ioremap_resource]) := by
  constructor
  · intro hm hi
    have hneg : (-EPROBE_DEFER : Int) < 0 := by decide
    simp [SysDevInit, get_dev_resource, hk, hr, hm, hi, hneg, IS_ERR_EPROBE_DEFER,
      PTR_ERR_EPROBE_DEFER, Outcome.error, Outcome.out, Outcome.state, State.call,
      State.write]
  · intro hm
    have h1 : IS_ERR (ERR_PTR (-EPROBE_DEFER)) = true := by decide
    have h2 : toPtr (PTR_ERR (ERR_PTR (-EPROBE_DEFER))) = toPtr (-EPROBE_DEFER) := by decide
    simp [SysDevInit, get_dev_resource, hk, hr, hm, h1, h2, IS_ERR_EPROBE_DEFER,
      PTR_ERR_EPROBE_DEFER, Outcome.error, Outcome.out, Outcome.state, State.call,
      State.write]

/-- Witness of C5: the all-success platform with the interrupt lookup
deferred, and the same platform with the register mapping deferred. -/
theorem C5_probe_defer_witness :
    ((SysDevInit { platformOk with platform_get_irq_byname := -EPROBE_DEFER }
        State.init 7).error = some PVRSRV_ERROR.PVRSRV_ERROR_PROBE_DEFER ∧
      (SysDevInit { platformOk with platform_get_irq_byname := -EPROBE_DEFER }
        State.init 7).out = none ∧
      (SysDevInit { platformOk with platform_get_irq_byname := -EPROBE_DEFER }
        State.init 7).state.trace = State.init.trace ++
        [Call.devm_kzalloc, Call.platform_get_resource 0, Call.platform_get_resource 1,
         Call.devm_ioremap_resource, Call.platform_get_irq_byname]) ∧
    ((SysDevInit { platformOk with devm_ioremap_resource := fun _ => ERR_PTR (-EPROBE_DEFER) }
        State.init 7).error = some PVRSRV_ERROR.PVRSRV_ERROR_PROBE_DEFER ∧
      (SysDevInit { platformOk with devm_ioremap_resource := fun _ => ERR_PTR (-EPROBE_DEFER) }
        State.init 7).out = none ∧
      (SysDevInit { platformOk with devm_ioremap_resource := fun _ => ERR_PTR (-EPROBE_DEFER) }
        State.init 7).state.trace = State.init.trace ++
        [Call.devm_kzalloc, Call.platform_get_resource 0, Call.platform_get_resource 1,
         Call.devm_ioremap_resource]) :=
  ⟨(C5_probe_defer { platformOk with platform_get_irq_byname := -EPROBE_DEFER } State.init 7
      { start := 0x50000000, last := 0x5000ffff } (by decide) rfl).1 (by decide) rfl,
   (C5_probe_defer { platformOk with devm_ioremap_resource := fun _ => ERR_PTR (-EPROBE_DEFER) }
      State.init 7 { start := 0x50000000, last := 0x5000ffff } (by decide) rfl).2 rfl⟩

/-- C6: when the primary compute-region resource (`IORESOURCE_MEM` index 0) is
missing, `SysDevInit` returns `PVRSRV_ERROR_INIT_FAILURE` (so neither
`PVRSRV_OK` nor `PVRSRV_ERROR_PROBE_DEFER`), stores nothing through its output
pointer, and the calls it made contain neither `DeviceConfigCreate` nor any
lookup after the primary resource, whatever the rest of the platform
answers. -/
theorem C6_missing_primary_resource (w : Platform) (st : State) (dev : Nat)
    (hr : w.platform_get_resource 0 = none) :
    (SysDevInit w st dev).error = some PVRSRV_ERROR.PVRSRV_ERROR_INIT_FAILURE ∧
    (SysDevInit w st dev).error ≠ some PVRSRV_ERROR.PVRSRV_OK ∧
    (SysDevInit w st dev).error ≠ some PVRSRV_ERROR.PVRSRV_ERROR_PROBE_DEFER ∧
    (SysDevInit w st dev).out = none ∧
    ∃ cs, (SysDevInit w st dev).state.trace = st.trace ++ cs ∧
      Call.DeviceConfigCreate ∉ cs ∧ Call.OSAllocZMem ∉ cs ∧
      Call.devm_ioremap_resource ∉ cs ∧ Call.platform_get_irq_byname ∉ cs ∧
      Call.of_parse_phandle_with_args ∉ cs := by
  have e1 : PTR_ERR (ERR_PTR (-ENOMEM)) ≠ -EPROBE_DEFER := by decide
  have e2 : PTR_ERR (toPtr (-ENODEV)) ≠ -EPROBE_DEFER := by decide
  by_cases hk : w.devm_kzalloc = 0
  · have h : SysDevInit w st dev = Outcome.returned PVRSRV_ERROR.PVRSRV_ERROR_INIT_FAILURE
        none (st.call Call.devm_kzalloc) := by
      simp [SysDevInit, get_dev_resource, hk, IS_ERR_ENOMEM, e1]
    rw [h]
    refine ⟨rfl, by simp [Outcome.error], by simp [Outcome.error], rfl,
      [Call.devm_kzalloc], rfl, by decide, by decide, by decide, by decide, by decide⟩
  · have h : SysDevInit w st dev = Outcome.returned PVRSRV_ERROR.PVRSRV_ERROR_INIT_FAILURE
        none (((st.call Call.devm_kzalloc).call (Call.platform_get_resource 0)).write
          w.devm_kzalloc { sg2380_sysdata.zero with dev := dev }) := by
      simp [SysDevInit, get_dev_resource, hk, hr, IS_ERR_ENODEV, e2]
    rw [h]
    refine ⟨rfl, by simp [Outcome.error], by simp [Outcome.error], rfl,
      [Call.devm_kzalloc, Call.platform_get_resource 0], ?_, by decide, by decide, by decide,
      by decide, by decide⟩
    simp [Outcome.state, State.call, State.write]

/-- Witness of C6: the all-success platform with every memory resource
removed. -/
theorem C6_missing_primary_resource_witness :
    (SysDevInit { platformOk with platform_get_resource := fun _ => none } State.init 7).error
      = some PVRSRV_ERROR.PVRSRV_ERROR_INIT_FAILURE ∧
    (SysDevInit { platformOk with platform_get_resource := fun _ => none } State.init 7).out
      = none :=
  ⟨(C6_missing_primary_resource { platformOk with platform_get_resource := fun _ => none }
      State.init 7 rfl).1,
   (C6_missing_primary_resource { platformOk with platform_get_resource := fun _ => none }
      State.init 7 rfl).2.2.2.1⟩

/-- C7: `DeviceConfigCreate`, given a pointer to a readable record `rec` and a
successful `OSAllocZMem`, returns `PVRSRV_OK` with a descriptor whose DMA part
follows `rec.has_dma`: if it is true the get and free hooks are `get_dma_chan`
and `free_dma_chan`, the channel names are "Tx" and "Rx" and `bHasDma` is
true; if it is false both hooks and both names are `NULL` and `bHasDma` is
false. -/
theorem C7_dma_hooks (w : Platform) (st : State) (pvOSDevice p : Nat) (rec : sg2380_sysdata)
    (ha : w.OSAllocZMem ≠ 0) (hm : st.mem p = some rec) :
    ∃ c st1, DeviceConfigCreate w st pvOSDevice p
        = Outcome.returned PVRSRV_ERROR.PVRSRV_OK (some c) st1 ∧
      (rec.has_dma = true →
        c.pfnSlaveDMAGetChan = some FnPtr.get_dma_chan ∧
        c.pfnSlaveDMAFreeChan = some FnPtr.free_dma_chan ∧
        c.pszDmaTxChanName = some "Tx" ∧ c.pszDmaRxChanName = some "Rx" ∧
        c.bHasDma = true) ∧
      (rec.has_dma = false →
        c.pfnSlaveDMAGetChan = none ∧ c.pfnSlaveDMAFreeChan = none ∧
        c.pszDmaTxChanName = none ∧ c.pszDmaRxChanName = none ∧
        c.bHasDma = false) := by
  cases hd : rec.has_dma <;>
    simp [DeviceConfigCreate, ha, hm, hd, State.call, PVRSRV_DEVICE_CONFIG.zero]

/-- Witness of C7: a record with DMA at address `0x1000`. -/
theorem C7_dma_hooks_witness :
    ∃ c st1, DeviceConfigCreate platformOk
        (State.init.write 0x1000 { sg2380_sysdata.zero with has_dma := true }) 7 0x1000
        = Outcome.returned PVRSRV_ERROR.PVRSRV_OK (some c) st1 ∧
      (({ sg2380_sysdata.zero with has_dma := true } : sg2380_sysdata).has_dma = true →
        c.pfnSlaveDMAGetChan = some FnPtr.get_dma_chan ∧
        c.pfnSlaveDMAFreeChan = some FnPtr.free_dma_chan ∧
        c.pszDmaTxChanName = some "Tx" ∧ c.pszDmaRxChanName = some "Rx" ∧
        c.bHasDma = true) ∧
      (({ sg2380_sysdata.zero with has_dma := true } : sg2380_sysdata).has_dma = false →
        c.pfnSlaveDMAGetChan = none ∧ c.pfnSlaveDMAFreeChan = none ∧
        c.pszDmaTxChanName = none ∧ c.pszDmaRxChanName = none ∧
        c.bHasDma = false) :=
  C7_dma_hooks platformOk
    (State.init.write 0x1000 { sg2380_sysdata.zero with has_dma := true }) 7 0x1000
    { sg2380_sysdata.zero with has_dma := true } (by decide) (by simp [State.write])

/-- C10: once the record is allocated, the primary resource found, the
register window mapped and the interrupt line found, `get_dev_resource` parses
the "dmas" specifier and leaves at the record's address a record whose
`has_dma` is false exactly when the parse result is 1, and true for every
other result (0 and every negative errno included). -/
theorem C10_has_dma (w : Platform) (st : State) (dev : Nat) (r : resource)
    (hk : w.devm_kzalloc ≠ 0) (hr : w.platform_get_resource 0 = some r)
    (hm : IS_ERR (w.devm_ioremap_resource (w.platform_get_resource 1)) = false)
    (hi : 0 ≤ w.platform_get_irq_byname) :
    ∃ rec, (get_dev_resource w st dev).2.mem w.devm_kzalloc = some rec ∧
      (rec.has_dma = false ↔ w.of_parse_phandle_with_args = 1) ∧
      (w.of_parse_phandle_with_args ≠ 1 → rec.has_dma = true) ∧
      (w.of_parse_phandle_with_args ≤ 0 → rec.has_dma = true) ∧
      (get_dev_resource w st dev).2.trace = st.trace ++
        [Call.devm_kzalloc, Call.platform_get_resource 0, Call.platform_get_resource 1,
         Call.devm_ioremap_resource, Call.platform_get_irq_byname,
         Call.of_parse_phandle_with_args] := by
  rw [get_dev_resource_ok w st dev r hk hr hm hi]
  refine ⟨_, if_pos rfl, ?_, ?_, ?_, rfl⟩
  · simp
  · intro h; simp [h]
  · intro h
    have : w.of_parse_phandle_with_args ≠ 1 := by omega
    simp [this]

/-- Witness of C10: the parse fails with `-ENOENT` (`-2`) and DMA is flagged
present. -/
theorem C10_has_dma_witness :
    ∃ rec, (get_dev_resource { platformOk with of_parse_phandle_with_args := -2 }
        State.init 7).2.mem platformOk.devm_kzalloc = some rec ∧ rec.has_dma = true := by
  obtain ⟨rec, h1, _, h3, _⟩ :=
    C10_has_dma { platformOk with of_parse_phandle_with_args := -2 } State.init 7
      { start := 0x50000000, last := 0x5000ffff } (by decide) rfl (by decide) (by decide)
  exact ⟨rec, h1, h3 (by decide)⟩

/-- C9 as stated fails at the interrupt-lookup result `-4096`, which lies
below `-MAX_ERRNO`: the prober hands back the pointer `2 ^ 64 - 4096`, which
`IS_ERR` does not take for an error, so `SysDevInit` goes on into
`DeviceConfigCreate` and `OSAllocZMem`; it then faults on the read through
that pointer, or returns `PVRSRV_ERROR_OUT_OF_MEMORY` when the allocation
fails.  In neither case is the result `PVRSRV_ERROR_INIT_FAILURE`. -/
theorem C9_counterexample :
    (get_dev_resource { platformOk with platform_get_irq_byname := -4096 } State.init 7).1
      = 2 ^ 64 - 4096 ∧
    IS_ERR (2 ^ 64 - 4096) = false ∧
    (SysDevInit { platformOk with platform_get_irq_byname := -4096 } State.init 7).error
      = none ∧
    (SysDevInit { platformOk with platform_get_irq_byname := -4096 } State.init 7).state.trace
      = [Call.devm_kzalloc, Call.platform_get_resource 0, Call.platform_get_resource 1,
         Call.devm_ioremap_resource, Call.platform_get_irq_byname, Call.DeviceConfigCreate,
         Call.OSAllocZMem] ∧
    (SysDevInit { platformOk with platform_get_irq_byname := -4096, OSAllocZMem := 0 }
      State.init 7).error = some PVRSRV_ERROR.PVRSRV_ERROR_OUT_OF_MEMORY := by
  decide

/-- C9, amended: with the record allocated, the primary resource present and
the register window mapped, every negative result `e` of the interrupt-line
lookup within the errno range `[-MAX_ERRNO, -1]` other than `-EPROBE_DEFER`
makes `SysDevInit` return `PVRSRV_ERROR_INIT_FAILURE`, store nothing through
its output pointer and stop right after the lookup, so that neither
`DeviceConfigCreate` nor `OSAllocZMem` is called. -/
theorem C9_irq_errno_init_failure (w : Platform) (st : State) (dev : Nat) (r : resource)
    (hk : w.devm_kzalloc ≠ 0) (hr : w.platform_get_resource 0 = some r)
    (hm : IS_ERR (w.devm_ioremap_resource (w.platform_get_resource 1)) = false)
    (h1 : -MAX_ERRNO ≤ w.platform_get_irq_byname) (h2 : w.platform_get_irq_byname < 0)
    (h3 : w.platform_get_irq_byname ≠ -EPROBE_DEFER) :
    (SysDevInit w st dev).error = some PVRSRV_ERROR.PVRSRV_ERROR_INIT_FAILURE ∧
    (SysDevInit w st dev).out = none ∧
    (SysDevInit w st dev).state.trace = st.trace ++
      [Call.devm_kzalloc, Call.platform_get_resource 0, Call.platform_get_resource 1,
       Call.devm_ioremap_resource, Call.platform_get_irq_byname] ∧
    ∃ cs, (SysDevInit w st dev).state.trace = st.trace ++ cs ∧
      Call.DeviceConfigCreate ∉ cs ∧ Call.OSAllocZMem ∉ cs := by
  have h1b : -4095 ≤ w.platform_get_irq_byname := h1
  obtain ⟨a, b, c⟩ := SysDevInit_irq_fails w st dev r hk hr hm h1b h2
  rw [if_neg h3] at a
  exact ⟨a, b, c, _, c, by decide, by decide⟩

/-- Witness of C9: the interrupt lookup fails with `-ENXIO` (`-6`) on the
otherwise all-success platform, and at the edge `-MAX_ERRNO` of the range. -/
theorem C9_irq_errno_init_failure_witness :
    ((SysDevInit { platformOk with platform_get_irq_byname := -6 } State.init 7).error
        = some PVRSRV_ERROR.PVRSRV_ERROR_INIT_FAILURE ∧
      (SysDevInit { platformOk with platform_get_irq_byname := -6 } State.init 7).out = none) ∧
    ((SysDevInit { platformOk with platform_get_irq_byname := -4095 } State.init 7).error
        = some PVRSRV_ERROR.PVRSRV_ERROR_INIT_FAILURE ∧
      (SysDevInit { platformOk with platform_get_irq_byname := -4095 } State.init 7).out
        = none) :=
  ⟨⟨(C9_irq_errno_init_failure { platformOk with platform_get_irq_byname := -6 } State.init 7
        { start := 0x50000000, last := 0x5000ffff } (by decide) rfl (by decide) (by decide)
        (by decide) (by decide)).1,
    (C9_irq_errno_init_failure { platformOk with platform_get_irq_byname := -6 } State.init 7
        { start := 0x50000000, last := 0x5000ffff } (by decide) rfl (by decide) (by decide)
        (by decide) (by decide)).2.1⟩,
   ⟨(C9_irq_errno_init_failure { platformOk with platform_get_irq_byname := -4095 }
        State.init 7 { start := 0x50000000, last := 0x5000ffff } (by decide) rfl (by decide)
        (by decide) (by decide) (by decide)).1,
    (C9_irq_errno_init_failure { platformOk with platform_get_irq_byname := -4095 }
        State.init 7 { start := 0x50000000, last := 0x5000ffff } (by decide) rfl (by decide)
        (by decide) (by decide) (by decide)).2.1⟩⟩

/-- C1 on the all-success platform (interrupt line 42, compute region of
`0x10000` bytes at `0x50000000`): the prober fills the record at the address
that `devm_kzalloc` returned but hands back the null pointer `0`, so
`SysDevInit` passes `0` on; `DeviceConfigCreate` sets `ghSysData` to `0` and
faults on the read through it, no `PVRSRV_OK` is returned and nothing is
stored through the output pointer.  Whatever the initial memory holds, no
descriptor with `hSysData` at the record is ever produced. -/
theorem C1_success_path_null_sysdata :
    (get_dev_resource platformOk State.init 7).1 = 0 ∧
    (get_dev_resource platformOk State.init 7).2.mem platformOk.devm_kzalloc
      = some { dev := 7, reg_base := 0xffffffc800200000, rgx_start := 0x50000000,
               rgx_size := 0x10000, rgx_irq := 42, has_dma := true,
               dma_tx_chan_name := none, dma_rx_chan_name := none } ∧
    (SysDevInit platformOk State.init 7).error = none ∧
    (SysDevInit platformOk State.init 7).out = none ∧
    (SysDevInit platformOk State.init 7).state.ghSysData = 0 ∧
    ∀ st : State, ((SysDevInit platformOk st 7).out.map fun c => c.hSysData)
      ≠ some platformOk.devm_kzalloc := by
  refine ⟨by decide, by decide, by decide, by decide, by decide, ?_⟩
  intro st
  have hg := get_dev_resource_ok platformOk st 7 { start := 0x50000000, last := 0x5000ffff }
    (by decide) rfl (by decide) (by decide)
  have h0 : ¬ IS_ERR 0 = true := by decide
  rw [SysDevInit_eq, hg, if_neg h0]
  rcases DeviceConfigCreate_cases platformOk
      (get_dev_resource platformOk st 7).2 7 0 with ⟨s, hs⟩ | ⟨s, hs⟩ | ⟨c, s, hs, hc⟩
  · rw [hg] at hs
    rw [hs]
    simp [Outcome.out]
  · rw [hg] at hs
    rw [hs]
    simp [Outcome.out]
  · rw [hg] at hs
    rw [hs]
    simp only [Outcome.out, ne_eq, not_true_eq_false, if_false, Option.map_some']
    rw [hc]
    decide

end SG2380
